import Mathlib

/-!
# Registry modules of go-tfe: validated delete operations and create operations

A shallow embedding of `registry_module.go`.

* Go strings are Lean strings; the bytes `s[i]` of a Go string are `bytes s`, its
  UTF-8 encoding. A Go string that is not valid UTF-8 has no counterpart here
  (the ID-safe pattern matches none of them).
* The transport (`client.newRequest`, `client.do`) is declared in another file of
  the repository and is a parameter: a `Client`, run by explicit state
  passing over a state of its own. Every call to it is recorded in the
  `World`, oldest first, so that "no call", "exactly one request" and "no
  second attempt" are statements about that record.
* `url.QueryEscape`, `fmt.Sprintf`, `strings.Split` and the dot-segment removal
  `resolvePath` of `net/url` are the Go standard library's.
-/

namespace Tfe

/-! ## Go strings -/

/-- UTF-8 encoding of one code point: the bytes a Go string holds for it. -/
def utf8Bytes (c : Char) : List Nat :=
  let v := c.toNat
  if v < 128 then [v]
  else if v < 2048 then [192 + v / 64, 128 + v % 64]
  else if v < 65536 then [224 + v / 4096, 128 + v / 64 % 64, 128 + v % 64]
  else [240 + v / 262144, 128 + v / 4096 % 64, 128 + v / 64 % 64, 128 + v % 64]

/-- The bytes `s[0], ..., s[len(s)-1]` of a Go string. -/
def bytes (s : String) : List Nat :=
  s.data.flatMap utf8Bytes

/-! ## Validation helpers (declared in the client's core file) -/

/-- Modelled from the spec: `validString` is declared outside `registry_module.go`;
it accepts exactly the strings that are present, that is, not empty
(`v != nil && *v != ""`, the pointer being the address of a parameter). -/
def validString (v : String) : Bool :=
  v != ""

/-- One character of the ID-safe grammar `[a-zA-Z0-9\-\._]`. -/
def idChar (c : Char) : Bool :=
  let n := c.toNat
  (97 ≤ n && n ≤ 122) || (65 ≤ n && n ≤ 90) || (48 ≤ n && n ≤ 57) ||
    n == 45 || n == 46 || n == 95

/-- Modelled from the spec: `validStringID` is declared outside
`registry_module.go`; it accepts exactly the non-empty strings made only of
ASCII letters, digits, `-`, `.` and `_` (the pattern `^[a-zA-Z0-9\-\._]+$`). -/
def validStringID (v : String) : Bool :=
  !v.data.isEmpty && v.data.all idChar

/-! ## `net/url.QueryEscape` and `fmt.Sprintf` of the Go standard library -/

/-- The function `shouldEscape(c, encodeQueryComponent)` of `net/url`: letters, digits and
the marks `-`, `_`, `.`, `~` are kept, every other byte is escaped. -/
def shouldEscape (c : Nat) : Bool :=
  if (97 ≤ c && c ≤ 122) || (65 ≤ c && c ≤ 90) || (48 ≤ c && c ≤ 57) then false
  else if c == 45 || c == 95 || c == 46 || c == 126 then false
  else true

/-- The table `upperhex` of `net/url`. -/
def upperhex : List Char := "0123456789ABCDEF".data

/-- What the second loop of `escape` writes for one byte. -/
def escapeByte (c : Nat) : List Char :=
  if c == 32 then ['+']
  else if shouldEscape c then ['%', upperhex.getD (c / 16) '0', upperhex.getD (c % 16) '0']
  else [Char.ofNat c]

/-- The function `url.QueryEscape(s)`, that is `escape(s, encodeQueryComponent)`: a first loop
counts the spaces and the other bytes to escape; with none of either the
argument is returned as it is; with spaces only they become `+`; otherwise
every byte is rewritten by `escapeByte`. -/
def QueryEscape (s : String) : String :=
  let spaceCount := ((bytes s).filter (fun c => shouldEscape c && c == 32)).length
  let hexCount := ((bytes s).filter (fun c => shouldEscape c && c != 32)).length
  if spaceCount == 0 && hexCount == 0 then s
  else if hexCount == 0 then ⟨s.data.map (fun c => if c == ' ' then '+' else c)⟩
  else ⟨(bytes s).flatMap escapeByte⟩

/-- What `fmt.Sprintf` appends for operands left over after the format. -/
def sprintfExtra (args : List String) : List Char :=
  ("%!(EXTRA " ++ ", ".intercalate (args.map (fun a => "string=" ++ a)) ++ ")").data

/-- The scan of the format by `fmt.Sprintf`, for string operands and the verb `%s`
(the only verb of the formats in `registry_module.go`). -/
def sprintfScan : List Char → List String → List Char
  | [], [] => []
  | [], a :: args => sprintfExtra (a :: args)
  | c :: rest, args =>
    if c = '%' then
      match rest, args with
      | 's' :: rest', a :: args' => a.data ++ sprintfScan rest' args'
      | 's' :: rest', [] => "%!s(MISSING)".data ++ sprintfScan rest' []
      | rest', args' => c :: sprintfScan rest' args'
    else c :: sprintfScan rest args

/-- The function `fmt.Sprintf(format, args...)` on string operands. -/
def Sprintf (format : String) (args : List String) : String :=
  ⟨sprintfScan format.data args⟩

/-! ## Path segments: `strings.Split` and the dot-segment removal of `net/url` -/

/-- The function `strings.Split(s, "/")` of the Go standard library, on the characters of `s`:
the pieces between the slashes, in order (one empty piece for the empty
string). -/
def splitSlash : List Char → List (List Char)
  | [] => [[]]
  | c :: cs =>
    if c = '/' then [] :: splitSlash cs
    else
      match splitSlash cs with
      | [] => [[c]]
      | seg :: segs => (c :: seg) :: segs

/-- The segments of a path as a string: what stands between its slashes. -/
def pathSegments (path : String) : List String :=
  (splitSlash path.data).map String.mk

/-- The loop of `resolvePath` in `net/url` (RFC 3986, 5.2.4): an element `.` is dropped,
an element `..` removes the last element kept so far, if there is one, and
any other element is kept. -/
def removeDots : List (List Char) → List (List Char) → List (List Char)
  | [], dst => dst
  | elem :: src, dst =>
    if elem = ['.'] then removeDots src dst
    else if elem = ['.', '.'] then removeDots src dst.dropLast
    else removeDots src (dst ++ [elem])

/-- The part `base[:i+1]` of `resolvePath`, `i` the last index of `/` in `base`: the base
up to and including its last slash (empty when it has none). -/
def uptoLastSlash (base : List Char) : List Char :=
  (base.reverse.dropWhile (fun c => c != '/')).reverse

/-- The function `resolvePath(base, ref)` of `net/url`, by which `URL.Parse` and
`URL.ResolveReference` resolve a reference path against a base path: the
reference is appended to the base up to its last slash (or taken alone when
it starts with a slash), the result is split at the slashes, the dot
segments are removed, and the rest is joined again behind one leading
slash. The client's `newRequest` resolves the path it is given against the
base URL of the client in this way. -/
def resolvePath (base ref : String) : String :=
  let full : List Char :=
    match ref.data with
    | [] => base.data
    | c :: _ => if c != '/' then uptoLastSlash base.data ++ ref.data else ref.data
  if full.isEmpty then ""
  else
    let src := splitSlash full
    let dst := removeDots src []
    let dst := if src.getLast? = some ['.'] ∨ src.getLast? = some ['.', '.']
      then dst ++ [[]] else dst
    let joined := List.intercalate ['/'] dst
    ⟨'/' :: (match joined with
      | '/' :: rest => rest
      | other => other)⟩

/-! ## The data model of `registry_module.go` -/

/-- The Go type `RegistryModuleStatus`, a string type. -/
abbrev RegistryModuleStatus := String

def RegistryModuleStatusPending : RegistryModuleStatus := "pending"
def RegistryModuleStatusNoVersionTags : RegistryModuleStatus := "no_version_tags"
def RegistryModuleStatusSetupFailed : RegistryModuleStatus := "setup_failed"
def RegistryModuleStatusSetupComplete : RegistryModuleStatus := "setup_complete"

/-- The Go type `RegistryModuleVersionStatus`, a string type. -/
abbrev RegistryModuleVersionStatus := String

def RegistryModuleVersionStatusPending : RegistryModuleVersionStatus := "pending"
def RegistryModuleVersionStatusCloning : RegistryModuleVersionStatus := "cloning"
def RegistryModuleVersionStatusCloneFailed : RegistryModuleVersionStatus := "clone_failed"
def RegistryModuleVersionStatusRegIngressReqFailed : RegistryModuleVersionStatus :=
  "reg_ingress_req_failed"
def RegistryModuleVersionStatusRegIngressing : RegistryModuleVersionStatus := "reg_ingressing"
def RegistryModuleVersionStatusRegIngressFailed : RegistryModuleVersionStatus :=
  "reg_ingress_failed"
def RegistryModuleVersionStatusOk : RegistryModuleVersionStatus := "ok"

structure RegistryModulePermissions where
  CanDelete : Bool
  CanResync : Bool
  CanRetry : Bool
  deriving DecidableEq, Repr

structure RegistryModuleVersionStatuses where
  Version : String
  Status : RegistryModuleVersionStatus
  Error : String
  deriving DecidableEq, Repr

/-- The struct `RegistryModule`; `ω` is the type `Organization`, declared in another file.
A nil pointer is `none`, a nil slice the empty list. -/
structure RegistryModule (ω : Type) where
  ID : String
  Name : String
  Provider : String
  Status : RegistryModuleStatus
  VersionStatuses : List RegistryModuleVersionStatuses
  Permissions : Option RegistryModulePermissions
  CreatedAt : String
  UpdatedAt : String
  Organization : Option ω
  deriving DecidableEq, Repr

/-- The zero value `RegistryModule{}`. -/
def RegistryModule.zero (ω : Type) : RegistryModule ω :=
  ⟨"", "", "", "", [], none, "", "", none⟩

/-- The struct `RegistryModuleCreateOptions`; `ο` is the type `VCSRepoOptions`, declared in
another file. -/
structure RegistryModuleCreateOptions (ο : Type) where
  VCSRepo : Option ο
  deriving DecidableEq, Repr

structure RegistryModuleCreateFromVCSConnectionOptions (ο : Type) where
  VCSRepo : Option ο
  deriving DecidableEq, Repr

/-! ## Errors, the transport and the record of its calls -/

/-- A Go `error` in the hands of a caller of this file: either a value made here by
`errors.New(text)` (the validation errors), or a value `e` that the transport
reported, handed on as it is. The two never coincide: `errors.New` allocates. -/
inductive Error (ε : Type) where
  | errorsNew (text : String)
  | transport (e : ε)
  deriving DecidableEq, Repr

/-- The value passed as `v` to `client.newRequest`, when it is not nil: a pointer to the
options of one of the two create operations. -/
inductive Body (ο : Type) where
  | create (options : RegistryModuleCreateOptions ο)
  | createFromVCS (options : RegistryModuleCreateFromVCSConnectionOptions ο)
  deriving DecidableEq, Repr

/-- The two methods of `*Client` that `registry_module.go` calls; they are declared in
another file and are parameters here. `σ` is whatever state the transport
and the remote service keep, `κ` the type `context.Context`, `ρ` the request
type, `ε` the errors the transport reports.

* `newRequest method path v` builds a request or reports an error;
* `do ctx req v` performs it: `v` is `none` for a nil target and otherwise
  the value behind the target pointer; the result is the error (`none` for
  nil) and the value the transport stored through the target, if it stored
  one. -/
structure Client (σ κ ρ ε ο ω : Type) where
  newRequest : String → String → Option (Body ο) → σ → Except ε ρ × σ
  «do» : κ → ρ → Option (RegistryModule ω) → σ → (Option ε × Option (RegistryModule ω)) × σ

/-- One call to the transport, with its arguments. -/
inductive Call (κ ρ ο ω : Type) where
  | newRequest (method path : String) (v : Option (Body ο))
  | «do» (ctx : κ) (req : ρ) (v : Option (RegistryModule ω))
  deriving DecidableEq, Repr

/-- The state an operation runs in: the transport's state and the calls made so far,
oldest first. -/
structure World (σ κ ρ ο ω : Type) where
  state : σ
  calls : List (Call κ ρ ο ω)
  deriving DecidableEq, Repr

section Operations

variable {σ κ ρ ε ο ω : Type}

/-- The call `r.client.newRequest(method, path, v)`, recorded. -/
def callNewRequest (c : Client σ κ ρ ε ο ω) (method path : String) (v : Option (Body ο))
    (w : World σ κ ρ ο ω) : Except ε ρ × World σ κ ρ ο ω :=
  let r := c.newRequest method path v w.state
  (r.1, ⟨r.2, w.calls ++ [Call.newRequest method path v]⟩)

/-- The call `r.client.do(ctx, req, v)`, recorded. -/
def callDo (c : Client σ κ ρ ε ο ω) (ctx : κ) (req : ρ) (v : Option (RegistryModule ω))
    (w : World σ κ ρ ο ω) : (Option ε × Option (RegistryModule ω)) × World σ κ ρ ο ω :=
  let r := c.«do» ctx req v w.state
  (r.1, ⟨r.2, w.calls ++ [Call.«do» ctx req v]⟩)

/-- The method `registryModules.Create`. The result is the pair `(*RegistryModule, error)`. -/
def Create (c : Client σ κ ρ ε ο ω) (ctx : κ) (options : RegistryModuleCreateOptions ο)
    (w : World σ κ ρ ο ω) :
    (Option (RegistryModule ω) × Option (Error ε)) × World σ κ ρ ο ω :=
  match callNewRequest c "POST" "registry-modules" (some (Body.create options)) w with
  | (Except.error err, w1) => ((none, some (Error.transport err)), w1)
  | (Except.ok req, w1) =>
    let m := RegistryModule.zero ω
    match callDo c ctx req (some m) w1 with
    | ((some err, _), w2) => ((none, some (Error.transport err)), w2)
    | ((none, stored), w2) => ((some (stored.getD m), none), w2)

/-- The method `registryModules.CreateWithVCSConnection`. -/
def CreateWithVCSConnection (c : Client σ κ ρ ε ο ω) (ctx : κ)
    (options : RegistryModuleCreateFromVCSConnectionOptions ο) (w : World σ κ ρ ο ω) :
    (Option (RegistryModule ω) × Option (Error ε)) × World σ κ ρ ο ω :=
  match callNewRequest c "POST" "registry-modules" (some (Body.createFromVCS options)) w with
  | (Except.error err, w1) => ((none, some (Error.transport err)), w1)
  | (Except.ok req, w1) =>
    let m := RegistryModule.zero ω
    match callDo c ctx req (some m) w1 with
    | ((some err, _), w2) => ((none, some (Error.transport err)), w2)
    | ((none, stored), w2) => ((some (stored.getD m), none), w2)

/-- The method `registryModules.Delete`. The result is the `error` (`none` for nil). -/
def Delete (c : Client σ κ ρ ε ο ω) (ctx : κ) (organization name : String)
    (w : World σ κ ρ ο ω) : Option (Error ε) × World σ κ ρ ο ω :=
  if !validStringID organization then
    (some (Error.errorsNew "invalid value for organization"), w)
  else if !validString name then
    (some (Error.errorsNew "name is required"), w)
  else if !validStringID name then
    (some (Error.errorsNew "invalid value for name"), w)
  else
    let u := Sprintf "registry-modules/actions/delete/%s/%s"
      [QueryEscape organization, QueryEscape name]
    match callNewRequest c "POST" u none w with
    | (Except.error err, w1) => (some (Error.transport err), w1)
    | (Except.ok req, w1) =>
      let r := callDo c ctx req none w1
      (r.1.1.map Error.transport, r.2)

/-- The method `registryModules.DeleteProvider`. -/
def DeleteProvider (c : Client σ κ ρ ε ο ω) (ctx : κ) (organization name provider : String)
    (w : World σ κ ρ ο ω) : Option (Error ε) × World σ κ ρ ο ω :=
  if !validStringID organization then
    (some (Error.errorsNew "invalid value for organization"), w)
  else if !validString name then
    (some (Error.errorsNew "name is required"), w)
  else if !validStringID name then
    (some (Error.errorsNew "invalid value for name"), w)
  else if !validString provider then
    (some (Error.errorsNew "provider is required"), w)
  else if !validStringID provider then
    (some (Error.errorsNew "invalid value for provider"), w)
  else
    let u := Sprintf "registry-modules/actions/delete/%s/%s/%s"
      [QueryEscape organization, QueryEscape name, QueryEscape provider]
    match callNewRequest c "POST" u none w with
    | (Except.error err, w1) => (some (Error.transport err), w1)
    | (Except.ok req, w1) =>
      let r := callDo c ctx req none w1
      (r.1.1.map Error.transport, r.2)

/-- The method `registryModules.DeleteVersion`. -/
def DeleteVersion (c : Client σ κ ρ ε ο ω) (ctx : κ)
    (organization name provider version : String)
    (w : World σ κ ρ ο ω) : Option (Error ε) × World σ κ ρ ο ω :=
  if !validStringID organization then
    (some (Error.errorsNew "invalid value for organization"), w)
  else if !validString name then
    (some (Error.errorsNew "name is required"), w)
  else if !validStringID name then
    (some (Error.errorsNew "invalid value for name"), w)
  else if !validString provider then
    (some (Error.errorsNew "provider is required"), w)
  else if !validStringID provider then
    (some (Error.errorsNew "invalid value for provider"), w)
  else if !validString version then
    (some (Error.errorsNew "version is required"), w)
  else if !validStringID version then
    (some (Error.errorsNew "invalid value for version"), w)
  else
    let u := Sprintf "registry-modules/actions/delete/%s/%s/%s/%s"
      [QueryEscape organization, QueryEscape name, QueryEscape provider, QueryEscape version]
    match callNewRequest c "POST" u none w with
    | (Except.error err, w1) => (some (Error.transport err), w1)
    | (Except.ok req, w1) =>
      let r := callDo c ctx req none w1
      (r.1.1.map Error.transport, r.2)

/-- The last five lines of each delete method, as one function of the path `u`:
`newRequest("POST", u, nil)`, its error returned if there is one, else the
result of `do(ctx, req, nil)`. -/
def postNoBody (c : Client σ κ ρ ε ο ω) (ctx : κ) (u : String) (w : World σ κ ρ ο ω) :
    Option (Error ε) × World σ κ ρ ο ω :=
  match callNewRequest c "POST" u none w with
  | (Except.error err, w1) => (some (Error.transport err), w1)
  | (Except.ok req, w1) =>
    let r := callDo c ctx req none w1
    (r.1.1.map Error.transport, r.2)

end Operations

/-! ## Vocabulary of the statements -/

/-- An identifier that validation has to refuse: empty, or not ID-safe. -/
def Invalid (x : String) : Prop :=
  x = "" ∨ validStringID x = false

instance (x : String) : Decidable (Invalid x) := by
  unfold Invalid
  infer_instance

/-- The texts of the validation errors of `registry_module.go`, in source order. -/
def validationTexts : List String :=
  ["invalid value for organization", "name is required", "invalid value for name",
   "provider is required", "invalid value for provider",
   "version is required", "invalid value for version"]

/-- A result that is one of the validation errors. -/
def IsValidationError {ε : Type} (r : Option (Error ε)) : Prop :=
  ∃ text, text ∈ validationTexts ∧ r = some (Error.errorsNew text)

/-- The identifiers of the delete operations, in parameter order. -/
inductive Field where
  | organization
  | name
  | provider
  | version
  deriving DecidableEq, Repr

/-- The word by which an error text names a field. -/
def Field.label : Field → String
  | Field.organization => "organization"
  | Field.name => "name"
  | Field.provider => "provider"
  | Field.version => "version"

/-- An error text names a field: it is `"<field> is required"` or `"invalid value for <field>"`. -/
def NamesField (text : String) (f : Field) : Prop :=
  text = f.label ++ " is required" ∨ text = "invalid value for " ++ f.label

/-- The path of a delete action, in the words of the contract: the delete-action path
followed by the segments, each escaped on its own, joined with `/`. -/
def deletePath (segments : List String) : String :=
  "registry-modules/actions/delete/" ++ "/".intercalate (segments.map QueryEscape)

/-! ## A concrete transport, for evaluating the operations -/

/-- A context reduced to what a transport reads of it: whether it is already cancelled. -/
structure Context where
  cancelled : Bool
  deriving DecidableEq, Repr

/-- Errors of the sample transport. -/
inductive TransportError where
  | canceled
  | unauthorized
  | notFound
  deriving DecidableEq, Repr

/-- Requests of the sample transport: what `newRequest` was given. -/
structure Request where
  method : String
  path : String
  body : Option (Body String)
  deriving DecidableEq, Repr

/-- A sample transport over a counter of performed requests. `newRequest` reports
`buildError` if there is one and else builds the request; `do` reports
`canceled` for a cancelled context, else `doError` if there is one, and else
stores a pending module named `vpc` through a target that is not nil. -/
def sampleClient (buildError doError : Option TransportError) :
    Client Nat Context Request TransportError String String where
  newRequest := fun method path v s =>
    match buildError with
    | some e => (Except.error e, s)
    | none => (Except.ok ⟨method, path, v⟩, s)
  «do» := fun ctx _ v s =>
    if ctx.cancelled then ((some TransportError.canceled, none), s)
    else
      match doError with
      | some e => ((some e, none), s + 1)
      | none =>
        ((none, v.map (fun m =>
          { m with ID := "mod-1", Name := "vpc", Provider := "aws",
                   Status := RegistryModuleStatusPending })), s + 1)

/-- The sample transport without failures. -/
def liveClient : Client Nat Context Request TransportError String String :=
  sampleClient none none

/-- The world before any call. -/
def world0 : World Nat Context Request String String :=
  ⟨0, []⟩

/-- A context that is not cancelled. -/
def background : Context := ⟨false⟩

/-- A context that is already cancelled. -/
def cancelledCtx : Context := ⟨true⟩

/-! ## Lemmas on validation -/

theorem validString_eq_false_iff (v : String) : validString v = false ↔ v = "" := by
  simp [validString]

theorem validStringID_empty : validStringID "" = false := by
  decide

theorem invalid_iff (x : String) : Invalid x ↔ validStringID x = false := by
  constructor
  · rintro (h | h)
    · subst h; exact validStringID_empty
    · exact h
  · exact Or.inr

theorem validString_of_validStringID {v : String} (h : validStringID v = true) :
    validString v = true := by
  cases hv : validString v
  · rw [validString_eq_false_iff] at hv
    subst hv
    rw [validStringID_empty] at h
    exact h
  · rfl

/-! ## Lemmas on escaping and on the paths -/

theorem idChar_ascii {c : Char} (h : idChar c = true) :
    utf8Bytes c = [c.toNat] ∧ shouldEscape c.toNat = false := by
  simp only [idChar, Bool.or_eq_true, Bool.and_eq_true, decide_eq_true_eq, beq_iff_eq] at h
  have hlt : c.toNat < 128 := by omega
  constructor
  · simp [utf8Bytes, hlt]
  · unfold shouldEscape
    rcases h with ((((h | h) | h) | h) | h) | h <;> simp [h]

theorem bytes_of_all_idChar (l : List Char) (h : l.all idChar = true) :
    ∀ b ∈ l.flatMap utf8Bytes, shouldEscape b = false := by
  induction l with
  | nil => simp
  | cons c l ih =>
    simp only [List.all_cons, Bool.and_eq_true] at h
    intro b hb
    simp only [List.flatMap_cons, List.mem_append] at hb
    rcases hb with hb | hb
    · rw [(idChar_ascii h.1).1] at hb
      simp only [List.mem_singleton] at hb
      subst hb
      exact (idChar_ascii h.1).2
    · exact ih h.2 b hb

/-- Escaping returns an ID-safe string as it is. -/
theorem QueryEscape_of_validStringID {s : String} (h : validStringID s = true) :
    QueryEscape s = s := by
  simp only [validStringID, Bool.and_eq_true] at h
  have hb := bytes_of_all_idChar s.data h.2
  have h1 : (bytes s).filter (fun c => shouldEscape c && c == 32) = [] := by
    rw [List.filter_eq_nil_iff]
    intro b hb'
    simp [hb b hb']
  have h2 : (bytes s).filter (fun c => shouldEscape c && c != 32) = [] := by
    rw [List.filter_eq_nil_iff]
    intro b hb'
    simp [hb b hb']
  simp [QueryEscape, h1, h2]

/-- An ID-safe string holds no `/`. -/
theorem count_slash_of_validStringID {s : String} (h : validStringID s = true) :
    s.data.count '/' = 0 := by
  simp only [validStringID, Bool.and_eq_true] at h
  rw [List.count_eq_zero]
  intro hmem
  have := List.all_eq_true.1 h.2 _ hmem
  exact absurd this (by decide)

/-- The format of `Delete` yields the delete-action path of its two escaped segments. -/
theorem Sprintf_delete2 (a b : String) :
    Sprintf "registry-modules/actions/delete/%s/%s" [QueryEscape a, QueryEscape b]
      = deletePath [a, b] := by
  apply String.ext
  simp [Sprintf, sprintfScan, deletePath, String.intercalate, String.intercalate.go]

theorem Sprintf_delete3 (a b d : String) :
    Sprintf "registry-modules/actions/delete/%s/%s/%s"
        [QueryEscape a, QueryEscape b, QueryEscape d]
      = deletePath [a, b, d] := by
  apply String.ext
  simp [Sprintf, sprintfScan, deletePath, String.intercalate, String.intercalate.go]

theorem Sprintf_delete4 (a b d e : String) :
    Sprintf "registry-modules/actions/delete/%s/%s/%s/%s"
        [QueryEscape a, QueryEscape b, QueryEscape d, QueryEscape e]
      = deletePath [a, b, d, e] := by
  apply String.ext
  simp [Sprintf, sprintfScan, deletePath, String.intercalate, String.intercalate.go]

theorem upperhex_getD_ne_slash (i : Nat) : upperhex.getD i '0' ≠ '/' := by
  by_cases h : i < 16
  · interval_cases i <;> decide
  · rw [List.getD_eq_default _ _ (by simpa [upperhex] using Nat.le_of_not_lt h)]
    decide

theorem ofNat_ne_slash : ∀ b, b < 128 → shouldEscape b = false → Char.ofNat b ≠ '/' := by
  decide

theorem shouldEscape_false_lt {b : Nat} (h : shouldEscape b = false) : b < 128 := by
  unfold shouldEscape at h
  split_ifs at h with h1 h2
  · simp only [Bool.or_eq_true, Bool.and_eq_true, decide_eq_true_eq] at h1
    omega
  · simp only [Bool.or_eq_true, beq_iff_eq] at h2
    omega

theorem slash_not_mem_escapeByte (b : Nat) : '/' ∉ escapeByte b := by
  unfold escapeByte
  split_ifs with h1 h2
  · decide
  · intro hmem
    simp only [List.mem_cons, List.mem_singleton, List.not_mem_nil, or_false] at hmem
    rcases hmem with h | h | h
    · exact absurd h (by decide)
    · exact upperhex_getD_ne_slash _ h.symm
    · exact upperhex_getD_ne_slash _ h.symm
  · intro hmem
    simp only [List.mem_singleton] at hmem
    have h2' : shouldEscape b = false := by simpa using h2
    exact ofNat_ne_slash b (shouldEscape_false_lt h2') h2' hmem.symm

theorem slash_byte_mem_bytes {s : String} (h : '/' ∈ s.data) : 47 ∈ bytes s := by
  unfold bytes
  rw [List.mem_flatMap]
  exact ⟨'/', h, by decide⟩

/-- The result of escaping never holds a `/`. -/
theorem slash_not_mem_QueryEscape (s : String) : '/' ∉ (QueryEscape s).data := by
  have key : '/' ∈ s.data →
      ((bytes s).filter (fun c => shouldEscape c && c != 32)).length ≠ 0 := by
    intro h hlen
    have h47 := slash_byte_mem_bytes h
    have : 47 ∈ (bytes s).filter (fun c => shouldEscape c && c != 32) :=
      List.mem_filter.2 ⟨h47, by decide⟩
    rw [List.length_eq_zero] at hlen
    rw [hlen] at this
    exact absurd this (List.not_mem_nil _)
  intro hmem
  unfold QueryEscape at hmem
  simp only [beq_iff_eq, Bool.and_eq_true] at hmem
  split_ifs at hmem with h1 h2
  · exact key hmem h1.2
  · simp only [List.mem_map] at hmem
    obtain ⟨c, hc, hce⟩ := hmem
    by_cases hsp : c = ' '
    · subst hsp
      exact absurd hce (by decide)
    · have : c = '/' := by simpa [hsp] using hce
      subst this
      exact key hc h2
  · simp only [List.mem_flatMap] at hmem
    obtain ⟨b, _, hb⟩ := hmem
    exact slash_not_mem_escapeByte b hb

theorem slash_mem_deletePath (segments : List String) :
    '/' ∈ (deletePath segments).data := by
  simp [deletePath]

/-- A delete-action path is not the escape of any string. -/
theorem deletePath_ne_QueryEscape (segments : List String) (t : String) :
    deletePath segments ≠ QueryEscape t := by
  intro h
  have := slash_mem_deletePath segments
  rw [h] at this
  exact slash_not_mem_QueryEscape t this

/-! ## Lemmas on path segments -/

theorem splitSlash_of_not_mem (l : List Char) (h : '/' ∉ l) : splitSlash l = [l] := by
  induction l with
  | nil => rfl
  | cons c cs ih =>
    have hc : c ≠ '/' := fun e => h (by simp [e])
    have hcs : '/' ∉ cs := fun m => h (List.mem_cons_of_mem _ m)
    simp [splitSlash, hc, ih hcs]

theorem splitSlash_append_slash (a rest : List Char) (h : '/' ∉ a) :
    splitSlash (a ++ '/' :: rest) = a :: splitSlash rest := by
  induction a with
  | nil => simp [splitSlash]
  | cons c cs ih =>
    have hc : c ≠ '/' := fun e => h (by simp [e])
    have hcs : '/' ∉ cs := fun m => h (List.mem_cons_of_mem _ m)
    simp [splitSlash, hc, ih hcs]

theorem slash_not_mem_of_validStringID {s : String} (h : validStringID s = true) :
    '/' ∉ s.data :=
  List.count_eq_zero.1 (count_slash_of_validStringID h)

theorem ne_empty_of_validStringID {s : String} (h : validStringID s = true) : s ≠ "" := by
  intro e
  subst e
  rw [validStringID_empty] at h
  exact absurd h (by decide)

/-- Splitting behind the fixed part of a delete-action path. -/
theorem splitSlash_delete (rest : List Char) :
    splitSlash ("registry-modules/actions/delete/".data ++ rest)
      = "registry-modules".data :: "actions".data :: "delete".data :: splitSlash rest := by
  have e : "registry-modules/actions/delete/".data ++ rest
      = "registry-modules".data ++ '/' :: ("actions".data ++ '/' ::
          ("delete".data ++ '/' :: rest)) := rfl
  rw [e, splitSlash_append_slash _ _ (by decide), splitSlash_append_slash _ _ (by decide),
    splitSlash_append_slash _ _ (by decide)]

/-! ## Lemmas on the operations -/

section OperationLemmas

variable {σ κ ρ ε ο ω : Type}

theorem postNoBody_build_error (c : Client σ κ ρ ε ο ω) (ctx : κ) (u : String)
    (w : World σ κ ρ ο ω) {e : ε} {s1 : σ}
    (h : c.newRequest "POST" u none w.state = (Except.error e, s1)) :
    postNoBody c ctx u w
      = (some (Error.transport e), ⟨s1, w.calls ++ [Call.newRequest "POST" u none]⟩) := by
  simp [postNoBody, callNewRequest, h]

theorem postNoBody_built (c : Client σ κ ρ ε ο ω) (ctx : κ) (u : String)
    (w : World σ κ ρ ο ω) {req : ρ} {s1 : σ}
    (h : c.newRequest "POST" u none w.state = (Except.ok req, s1)) :
    postNoBody c ctx u w
      = ((c.«do» ctx req none s1).1.1.map Error.transport,
         ⟨(c.«do» ctx req none s1).2,
          w.calls ++ [Call.newRequest "POST" u none, Call.«do» ctx req none]⟩) := by
  simp [postNoBody, callNewRequest, callDo, h]

theorem postNoBody_calls (c : Client σ κ ρ ε ο ω) (ctx : κ) (u : String)
    (w : World σ κ ρ ο ω) :
    ∃ tail, (postNoBody c ctx u w).2.calls = w.calls ++ Call.newRequest "POST" u none :: tail ∧
      (tail = [] ∨ ∃ req, tail = [Call.«do» ctx req none]) := by
  rcases h : c.newRequest "POST" u none w.state with ⟨r, s1⟩
  cases r with
  | error e =>
    rw [postNoBody_build_error c ctx u w h]
    exact ⟨[], rfl, Or.inl rfl⟩
  | ok req =>
    rw [postNoBody_built c ctx u w h]
    exact ⟨[Call.«do» ctx req none], by simp, Or.inr ⟨req, rfl⟩⟩

theorem Delete_of_valid (c : Client σ κ ρ ε ο ω) (ctx : κ) (w : World σ κ ρ ο ω)
    {organization name : String}
    (ho : validStringID organization = true) (hn : validStringID name = true) :
    Delete c ctx organization name w = postNoBody c ctx (deletePath [organization, name]) w := by
  simp [postNoBody, Delete, ho, hn, validString_of_validStringID hn, Sprintf_delete2]

theorem DeleteProvider_of_valid (c : Client σ κ ρ ε ο ω) (ctx : κ) (w : World σ κ ρ ο ω)
    {organization name provider : String}
    (ho : validStringID organization = true) (hn : validStringID name = true)
    (hp : validStringID provider = true) :
    DeleteProvider c ctx organization name provider w
      = postNoBody c ctx (deletePath [organization, name, provider]) w := by
  simp [postNoBody, DeleteProvider, ho, hn, hp, validString_of_validStringID hn,
    validString_of_validStringID hp, Sprintf_delete3]

theorem DeleteVersion_of_valid (c : Client σ κ ρ ε ο ω) (ctx : κ) (w : World σ κ ρ ο ω)
    {organization name provider version : String}
    (ho : validStringID organization = true) (hn : validStringID name = true)
    (hp : validStringID provider = true) (hv : validStringID version = true) :
    DeleteVersion c ctx organization name provider version w
      = postNoBody c ctx (deletePath [organization, name, provider, version]) w := by
  simp [postNoBody, DeleteVersion, ho, hn, hp, hv, validString_of_validStringID hn,
    validString_of_validStringID hp, validString_of_validStringID hv, Sprintf_delete4]

theorem deletePath_two (a b : String) :
    deletePath [a, b]
      = "registry-modules/actions/delete/" ++ QueryEscape a ++ "/" ++ QueryEscape b := by
  apply String.ext
  simp [deletePath, String.intercalate, String.intercalate.go]

theorem deletePath_three (a b d : String) :
    deletePath [a, b, d]
      = "registry-modules/actions/delete/" ++ QueryEscape a ++ "/" ++ QueryEscape b
          ++ "/" ++ QueryEscape d := by
  apply String.ext
  simp [deletePath, String.intercalate, String.intercalate.go]

theorem deletePath_four (a b d e : String) :
    deletePath [a, b, d, e]
      = "registry-modules/actions/delete/" ++ QueryEscape a ++ "/" ++ QueryEscape b
          ++ "/" ++ QueryEscape d ++ "/" ++ QueryEscape e := by
  apply String.ext
  simp [deletePath, String.intercalate, String.intercalate.go]

end OperationLemmas

section Claims

variable {σ κ ρ ε ο ω : Type}

/-- C1: for Delete, DeleteProvider and DeleteVersion, whenever at least one identifier the
operation takes is empty or not ID-safe, the operation returns one of the
validation errors and leaves the world as it was: the transport's state is
untouched and no call to `newRequest` or `do` is recorded. -/
theorem invalid_identifier_no_transport_call (c : Client σ κ ρ ε ο ω) (ctx : κ)
    (w : World σ κ ρ ο ω) (organization name provider version : String) :
    ((Invalid organization ∨ Invalid name) →
      IsValidationError (Delete c ctx organization name w).1 ∧
      (Delete c ctx organization name w).2 = w) ∧
    ((Invalid organization ∨ Invalid name ∨ Invalid provider) →
      IsValidationError (DeleteProvider c ctx organization name provider w).1 ∧
      (DeleteProvider c ctx organization name provider w).2 = w) ∧
    ((Invalid organization ∨ Invalid name ∨ Invalid provider ∨ Invalid version) →
      IsValidationError (DeleteVersion c ctx organization name provider version w).1 ∧
      (DeleteVersion c ctx organization name provider version w).2 = w) := by
  simp only [invalid_iff]
  refine ⟨?_, ?_, ?_⟩
  · intro h
    unfold Delete
    split_ifs <;>
      simp_all [IsValidationError, validationTexts, validString_of_validStringID]
  · intro h
    unfold DeleteProvider
    split_ifs <;>
      simp_all [IsValidationError, validationTexts, validString_of_validStringID]
  · intro h
    unfold DeleteVersion
    split_ifs <;>
      simp_all [IsValidationError, validationTexts, validString_of_validStringID]

/-- The refusal of invalid identifiers, on an empty name, a provider with a slash and an
organization with a space. -/
theorem invalid_identifier_no_transport_call_witness :
    ((Invalid "acme" ∨ Invalid "") ∧
      IsValidationError (Delete liveClient background "acme" "" world0).1 ∧
      (Delete liveClient background "acme" "" world0).2 = world0) ∧
    ((Invalid "acme" ∨ Invalid "vpc" ∨ Invalid "a/b") ∧
      IsValidationError (DeleteProvider liveClient background "acme" "vpc" "a/b" world0).1 ∧
      (DeleteProvider liveClient background "acme" "vpc" "a/b" world0).2 = world0) ∧
    ((Invalid "acme corp" ∨ Invalid "vpc" ∨ Invalid "aws" ∨ Invalid "1.0.0/beta") ∧
      IsValidationError
        (DeleteVersion liveClient background "acme corp" "vpc" "aws" "1.0.0/beta" world0).1 ∧
      (DeleteVersion liveClient background "acme corp" "vpc" "aws" "1.0.0/beta" world0).2
        = world0) :=
  ⟨⟨Or.inr (Or.inl rfl),
    (invalid_identifier_no_transport_call liveClient background world0
      "acme" "" "" "").1 (Or.inr (Or.inl rfl))⟩,
   ⟨Or.inr (Or.inr (Or.inr (by decide))),
    (invalid_identifier_no_transport_call liveClient background world0
      "acme" "vpc" "a/b" "").2.1 (Or.inr (Or.inr (Or.inr (by decide))))⟩,
   ⟨Or.inl (Or.inr (by decide)),
    (invalid_identifier_no_transport_call liveClient background world0
      "acme corp" "vpc" "aws" "1.0.0/beta").2.2 (Or.inl (Or.inr (by decide)))⟩⟩

/-- C2: validation stops at the first invalid field in the order organization, name,
provider, version. For each operation and each field it takes: when that
field is the earliest invalid one, the operation returns a single error whose
text names that field, makes no call, and the error is the same whatever
the later fields are. -/
theorem validation_stops_at_earliest_invalid_field (c : Client σ κ ρ ε ο ω) (ctx : κ)
    (w : World σ κ ρ ο ω) (organization name provider version : String) :
    ((Invalid organization → ∃ text, NamesField text Field.organization ∧
        ∀ name', Delete c ctx organization name' w = (some (Error.errorsNew text), w)) ∧
     (¬ Invalid organization → Invalid name → ∃ text, NamesField text Field.name ∧
        Delete c ctx organization name w = (some (Error.errorsNew text), w))) ∧
    ((Invalid organization → ∃ text, NamesField text Field.organization ∧
        ∀ name' provider', DeleteProvider c ctx organization name' provider' w
          = (some (Error.errorsNew text), w)) ∧
     (¬ Invalid organization → Invalid name → ∃ text, NamesField text Field.name ∧
        ∀ provider', DeleteProvider c ctx organization name provider' w
          = (some (Error.errorsNew text), w)) ∧
     (¬ Invalid organization → ¬ Invalid name → Invalid provider →
        ∃ text, NamesField text Field.provider ∧
        DeleteProvider c ctx organization name provider w
          = (some (Error.errorsNew text), w))) ∧
    ((Invalid organization → ∃ text, NamesField text Field.organization ∧
        ∀ name' provider' version', DeleteVersion c ctx organization name' provider' version' w
          = (some (Error.errorsNew text), w)) ∧
     (¬ Invalid organization → Invalid name → ∃ text, NamesField text Field.name ∧
        ∀ provider' version', DeleteVersion c ctx organization name provider' version' w
          = (some (Error.errorsNew text), w)) ∧
     (¬ Invalid organization → ¬ Invalid name → Invalid provider →
        ∃ text, NamesField text Field.provider ∧
        ∀ version', DeleteVersion c ctx organization name provider version' w
          = (some (Error.errorsNew text), w)) ∧
     (¬ Invalid organization → ¬ Invalid name → ¬ Invalid provider → Invalid version →
        ∃ text, NamesField text Field.version ∧
        DeleteVersion c ctx organization name provider version w
          = (some (Error.errorsNew text), w))) := by
  simp only [invalid_iff, Bool.not_eq_false]
  have org : NamesField "invalid value for organization" Field.organization := Or.inr rfl
  have key : ∀ (f : Field) (x : String), validStringID x = false →
      ∃ text, NamesField text f ∧
        text = (if validString x = false then f.label ++ " is required"
                else "invalid value for " ++ f.label) := by
    intro f x _
    cases validString x
    · exact ⟨_, Or.inl rfl, by simp⟩
    · exact ⟨_, Or.inr rfl, by simp⟩
  refine ⟨⟨?_, ?_⟩, ⟨?_, ?_, ?_⟩, ⟨?_, ?_, ?_, ?_⟩⟩
  · intro ho
    exact ⟨_, org, fun _ => by simp [Delete, ho]⟩
  · intro ho hn
    obtain ⟨text, ht, he⟩ := key Field.name name hn
    refine ⟨text, ht, ?_⟩
    subst he
    cases hs : validString name <;> simp [Delete, ho, hn, hs, Field.label]
  · intro ho
    exact ⟨_, org, fun _ _ => by simp [DeleteProvider, ho]⟩
  · intro ho hn
    obtain ⟨text, ht, he⟩ := key Field.name name hn
    refine ⟨text, ht, fun _ => ?_⟩
    subst he
    cases hs : validString name <;> simp [DeleteProvider, ho, hn, hs, Field.label]
  · intro ho hn hp
    obtain ⟨text, ht, he⟩ := key Field.provider provider hp
    refine ⟨text, ht, ?_⟩
    subst he
    cases hs : validString provider <;>
      simp [DeleteProvider, ho, hn, hp, hs, Field.label, validString_of_validStringID]
  · intro ho
    exact ⟨_, org, fun _ _ _ => by simp [DeleteVersion, ho]⟩
  · intro ho hn
    obtain ⟨text, ht, he⟩ := key Field.name name hn
    refine ⟨text, ht, fun _ _ => ?_⟩
    subst he
    cases hs : validString name <;> simp [DeleteVersion, ho, hn, hs, Field.label]
  · intro ho hn hp
    obtain ⟨text, ht, he⟩ := key Field.provider provider hp
    refine ⟨text, ht, fun _ => ?_⟩
    subst he
    cases hs : validString provider <;>
      simp [DeleteVersion, ho, hn, hp, hs, Field.label, validString_of_validStringID]
  · intro ho hn hp hv
    obtain ⟨text, ht, he⟩ := key Field.version version hv
    refine ⟨text, ht, ?_⟩
    subst he
    cases hs : validString version <;>
      simp [DeleteVersion, ho, hn, hp, hv, hs, Field.label, validString_of_validStringID]

/-- The earliest invalid field decides, on one input per field. -/
theorem validation_stops_at_earliest_invalid_field_witness :
    (Invalid "acme corp" ∧ ∃ text, NamesField text Field.organization ∧
        ∀ name', Delete liveClient cancelledCtx "acme corp" name' world0
          = (some (Error.errorsNew text), world0)) ∧
    (¬ Invalid "acme" ∧ Invalid "" ∧ ∃ text, NamesField text Field.name ∧
        ∀ provider', DeleteProvider liveClient background "acme" "" provider' world0
          = (some (Error.errorsNew text), world0)) ∧
    (¬ Invalid "acme" ∧ ¬ Invalid "vpc" ∧ Invalid "a/b" ∧
        ∃ text, NamesField text Field.provider ∧
        ∀ version', DeleteVersion liveClient background "acme" "vpc" "a/b" version' world0
          = (some (Error.errorsNew text), world0)) ∧
    (¬ Invalid "acme" ∧ ¬ Invalid "vpc" ∧ ¬ Invalid "aws" ∧ Invalid "1.0.0/beta" ∧
        ∃ text, NamesField text Field.version ∧
        DeleteVersion liveClient background "acme" "vpc" "aws" "1.0.0/beta" world0
          = (some (Error.errorsNew text), world0)) :=
  ⟨⟨by decide,
    (validation_stops_at_earliest_invalid_field liveClient cancelledCtx world0
      "acme corp" "" "" "").1.1 (by decide)⟩,
   ⟨by decide, by decide,
    (validation_stops_at_earliest_invalid_field liveClient background world0
      "acme" "" "" "").2.1.2.1 (by decide) (by decide)⟩,
   ⟨by decide, by decide, by decide,
    (validation_stops_at_earliest_invalid_field liveClient background world0
      "acme" "vpc" "a/b" "").2.2.2.2.1 (by decide) (by decide) (by decide)⟩,
   ⟨by decide, by decide, by decide, by decide,
    (validation_stops_at_earliest_invalid_field liveClient background world0
      "acme" "vpc" "aws" "1.0.0/beta").2.2.2.2.2 (by decide) (by decide) (by decide)
      (by decide)⟩⟩

/-- C3: presence and ID-safety are two distinct failure reasons. With the earlier fields
valid, an empty name yields exactly "name is required" and a non-empty name
that is not ID-safe yields exactly "invalid value for name", in all three
delete operations; the same holds for provider in DeleteProvider and
DeleteVersion, and for version in DeleteVersion. -/
theorem required_and_invalid_are_distinct (c : Client σ κ ρ ε ο ω) (ctx : κ)
    (w : World σ κ ρ ο ω) (organization name provider version : String)
    (ho : validStringID organization = true) :
    (name = "" →
      (Delete c ctx organization name w).1 = some (Error.errorsNew "name is required") ∧
      (DeleteProvider c ctx organization name provider w).1
        = some (Error.errorsNew "name is required") ∧
      (DeleteVersion c ctx organization name provider version w).1
        = some (Error.errorsNew "name is required")) ∧
    (name ≠ "" → validStringID name = false →
      (Delete c ctx organization name w).1 = some (Error.errorsNew "invalid value for name") ∧
      (DeleteProvider c ctx organization name provider w).1
        = some (Error.errorsNew "invalid value for name") ∧
      (DeleteVersion c ctx organization name provider version w).1
        = some (Error.errorsNew "invalid value for name")) ∧
    (validStringID name = true →
      (provider = "" →
        (DeleteProvider c ctx organization name provider w).1
          = some (Error.errorsNew "provider is required") ∧
        (DeleteVersion c ctx organization name provider version w).1
          = some (Error.errorsNew "provider is required")) ∧
      (provider ≠ "" → validStringID provider = false →
        (DeleteProvider c ctx organization name provider w).1
          = some (Error.errorsNew "invalid value for provider") ∧
        (DeleteVersion c ctx organization name provider version w).1
          = some (Error.errorsNew "invalid value for provider")) ∧
      (validStringID provider = true →
        (version = "" →
          (DeleteVersion c ctx organization name provider version w).1
            = some (Error.errorsNew "version is required")) ∧
        (version ≠ "" → validStringID version = false →
          (DeleteVersion c ctx organization name provider version w).1
            = some (Error.errorsNew "invalid value for version")))) := by
  have present : ∀ x : String, x ≠ "" → validString x = true := by
    intro x hx
    cases h : validString x
    · exact absurd ((validString_eq_false_iff x).1 h) hx
    · rfl
  have absent : validString "" = false := by decide
  refine ⟨?_, ?_, ?_⟩
  · intro hn
    subst hn
    simp [Delete, DeleteProvider, DeleteVersion, ho, absent]
  · intro hn hn2
    simp [Delete, DeleteProvider, DeleteVersion, ho, present name hn, hn2]
  · intro hn
    have hn1 := validString_of_validStringID hn
    refine ⟨?_, ?_, ?_⟩
    · intro hp
      subst hp
      simp [DeleteProvider, DeleteVersion, ho, hn, hn1, absent]
    · intro hp hp2
      simp [DeleteProvider, DeleteVersion, ho, hn, hn1, present provider hp, hp2]
    · intro hp
      have hp1 := validString_of_validStringID hp
      refine ⟨?_, ?_⟩
      · intro hv
        subst hv
        simp [DeleteVersion, ho, hn, hn1, hp, hp1, absent]
      · intro hv hv2
        simp [DeleteVersion, ho, hn, hn1, hp, hp1, present version hv, hv2]

/-- The two failure reasons, on an absent and on a malformed value of each field. -/
theorem required_and_invalid_are_distinct_witness :
    validStringID "acme" = true ∧
    ("" = "" ∧
      (Delete liveClient background "acme" "" world0).1
        = some (Error.errorsNew "name is required")) ∧
    ("v p c" ≠ "" ∧ validStringID "v p c" = false ∧
      (Delete liveClient background "acme" "v p c" world0).1
        = some (Error.errorsNew "invalid value for name")) ∧
    (validStringID "vpc" = true ∧ "" = "" ∧
      (DeleteProvider liveClient background "acme" "vpc" "" world0).1
        = some (Error.errorsNew "provider is required")) ∧
    (validStringID "vpc" = true ∧ "a/b" ≠ "" ∧ validStringID "a/b" = false ∧
      (DeleteProvider liveClient background "acme" "vpc" "a/b" world0).1
        = some (Error.errorsNew "invalid value for provider")) ∧
    (validStringID "vpc" = true ∧ validStringID "aws" = true ∧ "" = "" ∧
      (DeleteVersion liveClient background "acme" "vpc" "aws" "" world0).1
        = some (Error.errorsNew "version is required")) ∧
    (validStringID "vpc" = true ∧ validStringID "aws" = true ∧ "1.0.0/beta" ≠ "" ∧
      validStringID "1.0.0/beta" = false ∧
      (DeleteVersion liveClient background "acme" "vpc" "aws" "1.0.0/beta" world0).1
        = some (Error.errorsNew "invalid value for version")) :=
  ⟨by decide,
   ⟨rfl, ((required_and_invalid_are_distinct liveClient background world0
      "acme" "" "" "" (by decide)).1 rfl).1⟩,
   ⟨by decide, by decide, ((required_and_invalid_are_distinct liveClient background world0
      "acme" "v p c" "" "" (by decide)).2.1 (by decide) (by decide)).1⟩,
   ⟨by decide, rfl, (((required_and_invalid_are_distinct liveClient background world0
      "acme" "vpc" "" "" (by decide)).2.2 (by decide)).1 rfl).1⟩,
   ⟨by decide, by decide, by decide,
    (((required_and_invalid_are_distinct liveClient background world0
      "acme" "vpc" "a/b" "" (by decide)).2.2 (by decide)).2.1 (by decide) (by decide)).1⟩,
   ⟨by decide, by decide, rfl,
    ((((required_and_invalid_are_distinct liveClient background world0
      "acme" "vpc" "aws" "" (by decide)).2.2 (by decide)).2.2 (by decide)).1 rfl)⟩,
   ⟨by decide, by decide, by decide, by decide,
    ((((required_and_invalid_are_distinct liveClient background world0
      "acme" "vpc" "aws" "1.0.0/beta" (by decide)).2.2 (by decide)).2.2 (by decide)).2
        (by decide) (by decide))⟩⟩

/-- C4: for every input that passes validation, Delete, DeleteProvider and DeleteVersion
make exactly one call to `newRequest`, with method POST and a nil body, on
the delete-action path followed by the two, three or four identifiers in the
order organization, name, provider, version, each escaped on its own and
joined with `/`; the only other call is at most one `do` of the built
request with a nil target; and that path is not the escape of any string,
so it is never escaped as a whole. -/
theorem delete_builds_one_post_on_escaped_segments (c : Client σ κ ρ ε ο ω) (ctx : κ)
    (w : World σ κ ρ ο ω) (organization name provider version : String)
    (ho : validStringID organization = true) (hn : validStringID name = true) :
    (∃ tail, (Delete c ctx organization name w).2.calls
        = w.calls ++ Call.newRequest "POST"
            ("registry-modules/actions/delete/" ++ QueryEscape organization ++ "/"
              ++ QueryEscape name) none :: tail ∧
        (tail = [] ∨ ∃ req, tail = [Call.«do» ctx req none])) ∧
    (∀ t, "registry-modules/actions/delete/" ++ QueryEscape organization ++ "/"
        ++ QueryEscape name ≠ QueryEscape t) ∧
    (validStringID provider = true →
      (∃ tail, (DeleteProvider c ctx organization name provider w).2.calls
          = w.calls ++ Call.newRequest "POST"
              ("registry-modules/actions/delete/" ++ QueryEscape organization ++ "/"
                ++ QueryEscape name ++ "/" ++ QueryEscape provider) none :: tail ∧
          (tail = [] ∨ ∃ req, tail = [Call.«do» ctx req none])) ∧
      (∀ t, "registry-modules/actions/delete/" ++ QueryEscape organization ++ "/"
          ++ QueryEscape name ++ "/" ++ QueryEscape provider ≠ QueryEscape t) ∧
      (validStringID version = true →
        (∃ tail, (DeleteVersion c ctx organization name provider version w).2.calls
            = w.calls ++ Call.newRequest "POST"
                ("registry-modules/actions/delete/" ++ QueryEscape organization ++ "/"
                  ++ QueryEscape name ++ "/" ++ QueryEscape provider ++ "/"
                  ++ QueryEscape version) none :: tail ∧
            (tail = [] ∨ ∃ req, tail = [Call.«do» ctx req none])) ∧
        (∀ t, "registry-modules/actions/delete/" ++ QueryEscape organization ++ "/"
            ++ QueryEscape name ++ "/" ++ QueryEscape provider ++ "/"
            ++ QueryEscape version ≠ QueryEscape t))) := by
  refine ⟨?_, ?_, fun hp => ⟨?_, ?_, fun hv => ⟨?_, ?_⟩⟩⟩
  · rw [Delete_of_valid c ctx w ho hn, ← deletePath_two]
    exact postNoBody_calls c ctx _ w
  · rw [← deletePath_two]
    exact deletePath_ne_QueryEscape _
  · rw [DeleteProvider_of_valid c ctx w ho hn hp, ← deletePath_three]
    exact postNoBody_calls c ctx _ w
  · rw [← deletePath_three]
    exact deletePath_ne_QueryEscape _
  · rw [DeleteVersion_of_valid c ctx w ho hn hp hv, ← deletePath_four]
    exact postNoBody_calls c ctx _ w
  · rw [← deletePath_four]
    exact deletePath_ne_QueryEscape _

/-- The request of DeleteVersion on four ID-safe identifiers. -/
theorem delete_builds_one_post_on_escaped_segments_witness :
    validStringID "acme" = true ∧ validStringID "vpc" = true ∧
    validStringID "aws" = true ∧ validStringID "1.0.0" = true ∧
    (∃ tail, (DeleteVersion liveClient background "acme" "vpc" "aws" "1.0.0" world0).2.calls
        = world0.calls ++ Call.newRequest "POST"
            ("registry-modules/actions/delete/" ++ QueryEscape "acme" ++ "/"
              ++ QueryEscape "vpc" ++ "/" ++ QueryEscape "aws" ++ "/"
              ++ QueryEscape "1.0.0") none :: tail ∧
        (tail = [] ∨ ∃ req, tail = [Call.«do» background req none])) ∧
    (∀ t, "registry-modules/actions/delete/" ++ QueryEscape "acme" ++ "/"
        ++ QueryEscape "vpc" ++ "/" ++ QueryEscape "aws" ++ "/"
        ++ QueryEscape "1.0.0" ≠ QueryEscape t) :=
  ⟨by decide, by decide, by decide, by decide,
   (((delete_builds_one_post_on_escaped_segments liveClient background world0
      "acme" "vpc" "aws" "1.0.0" (by decide) (by decide)).2.2 (by decide)).2.2
        (by decide))⟩

/-- The run of DeleteVersion on valid identifiers against the sample transport: one
`newRequest`, one `do`, no error. -/
theorem DeleteVersion_sample_run :
    DeleteVersion liveClient background "acme" "vpc" "aws" "1.0.0" world0
      = (none,
         ⟨1, [Call.newRequest "POST" "registry-modules/actions/delete/acme/vpc/aws/1.0.0" none,
              Call.«do» background
                ⟨"POST", "registry-modules/actions/delete/acme/vpc/aws/1.0.0", none⟩ none]⟩) := by
  decide

/-- C5 as stated fails: DeleteVersion("acme corp", "vpc", "aws", "1.0.0/beta") returns the
validation error for organization and issues no request at all, so no request
on the path `actions/delete/acme%20corp/vpc/aws/1.0.0%2Fbeta` is issued; and
the path expression of the code does not yield that path on these segments
either. -/
theorem DeleteVersion_acme_corp_issues_no_request :
    (DeleteVersion liveClient background "acme corp" "vpc" "aws" "1.0.0/beta" world0).1
      = some (Error.errorsNew "invalid value for organization") ∧
    (DeleteVersion liveClient background "acme corp" "vpc" "aws" "1.0.0/beta" world0).2.calls
      = [] ∧
    Sprintf "registry-modules/actions/delete/%s/%s/%s/%s"
        [QueryEscape "acme corp", QueryEscape "vpc", QueryEscape "aws",
         QueryEscape "1.0.0/beta"]
      ≠ "actions/delete/acme%20corp/vpc/aws/1.0.0%2Fbeta" := by
  decide

/-- C5, amended: DeleteVersion("acme corp", "vpc", "aws", "1.0.0/beta") is refused by
validation, whatever the transport: it returns "invalid value for
organization" and leaves the world unchanged, so no request is issued. The
path expression of DeleteVersion escapes each segment on its own with
`url.QueryEscape` and joins with `/`: the space becomes `+`, the slash `%2F`,
and on these four segments it yields
`registry-modules/actions/delete/acme+corp/vpc/aws/1.0.0%2Fbeta`. -/
theorem DeleteVersion_acme_corp_refused (c : Client σ κ ρ ε ο ω) (ctx : κ)
    (w : World σ κ ρ ο ω) :
    DeleteVersion c ctx "acme corp" "vpc" "aws" "1.0.0/beta" w
      = (some (Error.errorsNew "invalid value for organization"), w) ∧
    QueryEscape "acme corp" = "acme+corp" ∧
    QueryEscape "1.0.0/beta" = "1.0.0%2Fbeta" ∧
    Sprintf "registry-modules/actions/delete/%s/%s/%s/%s"
        [QueryEscape "acme corp", QueryEscape "vpc", QueryEscape "aws",
         QueryEscape "1.0.0/beta"]
      = "registry-modules/actions/delete/acme+corp/vpc/aws/1.0.0%2Fbeta" := by
  refine ⟨?_, by decide, by decide, by decide⟩
  have h : validStringID "acme corp" = false := by decide
  simp [DeleteVersion, h]

/-- C10, amended: escaping is the identity on everything validation lets through. For
ID-safe organization, name, provider and version, `url.QueryEscape` returns
each unchanged and each is non-empty; the one `newRequest` of DeleteVersion
is on the path `registry-modules/actions/delete/` followed by the four
identifiers as they are, joined with `/`, which holds exactly six `/` and
splits at them into exactly the three fixed segments and the four
identifiers; DeleteProvider requests the three-identifier path with five
`/`, Delete the two-identifier path with four, split likewise. So no input
that passes validation adds, removes or merges a segment of the path as a
string. -/
theorem validated_identifiers_escape_to_themselves (c : Client σ κ ρ ε ο ω) (ctx : κ)
    (w : World σ κ ρ ο ω) (organization name provider version : String)
    (ho : validStringID organization = true) (hn : validStringID name = true)
    (hp : validStringID provider = true) (hv : validStringID version = true) :
    (QueryEscape organization = organization ∧ QueryEscape name = name ∧
      QueryEscape provider = provider ∧ QueryEscape version = version) ∧
    (organization ≠ "" ∧ name ≠ "" ∧ provider ≠ "" ∧ version ≠ "") ∧
    ((∃ tail, (DeleteVersion c ctx organization name provider version w).2.calls
        = w.calls ++ Call.newRequest "POST"
            ("registry-modules/actions/delete/" ++ organization ++ "/" ++ name ++ "/"
              ++ provider ++ "/" ++ version) none :: tail ∧
        (tail = [] ∨ ∃ req, tail = [Call.«do» ctx req none])) ∧
      ("registry-modules/actions/delete/" ++ organization ++ "/" ++ name ++ "/"
        ++ provider ++ "/" ++ version).data.count '/' = 6 ∧
      pathSegments ("registry-modules/actions/delete/" ++ organization ++ "/" ++ name ++ "/"
        ++ provider ++ "/" ++ version)
        = ["registry-modules", "actions", "delete", organization, name, provider, version]) ∧
    ((∃ tail, (DeleteProvider c ctx organization name provider w).2.calls
        = w.calls ++ Call.newRequest "POST"
            ("registry-modules/actions/delete/" ++ organization ++ "/" ++ name ++ "/"
              ++ provider) none :: tail ∧
        (tail = [] ∨ ∃ req, tail = [Call.«do» ctx req none])) ∧
      ("registry-modules/actions/delete/" ++ organization ++ "/" ++ name ++ "/"
        ++ provider).data.count '/' = 5 ∧
      pathSegments ("registry-modules/actions/delete/" ++ organization ++ "/" ++ name ++ "/"
        ++ provider)
        = ["registry-modules", "actions", "delete", organization, name, provider]) ∧
    ((∃ tail, (Delete c ctx organization name w).2.calls
        = w.calls ++ Call.newRequest "POST"
            ("registry-modules/actions/delete/" ++ organization ++ "/" ++ name) none :: tail ∧
        (tail = [] ∨ ∃ req, tail = [Call.«do» ctx req none])) ∧
      ("registry-modules/actions/delete/" ++ organization ++ "/" ++ name).data.count '/'
        = 4 ∧
      pathSegments ("registry-modules/actions/delete/" ++ organization ++ "/" ++ name)
        = ["registry-modules", "actions", "delete", organization, name]) := by
  have eo := QueryEscape_of_validStringID ho
  have en := QueryEscape_of_validStringID hn
  have ep := QueryEscape_of_validStringID hp
  have ev := QueryEscape_of_validStringID hv
  have co := count_slash_of_validStringID ho
  have cn := count_slash_of_validStringID hn
  have cp := count_slash_of_validStringID hp
  have cv := count_slash_of_validStringID hv
  have so := slash_not_mem_of_validStringID ho
  have sn := slash_not_mem_of_validStringID hn
  have sp := slash_not_mem_of_validStringID hp
  have sv := slash_not_mem_of_validStringID hv
  have c0 : "registry-modules/actions/delete/".data.count '/' = 3 := by decide
  refine ⟨⟨eo, en, ep, ev⟩,
    ⟨ne_empty_of_validStringID ho, ne_empty_of_validStringID hn,
     ne_empty_of_validStringID hp, ne_empty_of_validStringID hv⟩,
    ⟨?_, ?_, ?_⟩, ⟨?_, ?_, ?_⟩, ⟨?_, ?_, ?_⟩⟩
  · have h := postNoBody_calls c ctx (deletePath [organization, name, provider, version]) w
    rw [deletePath_four, eo, en, ep, ev] at h
    rw [DeleteVersion_of_valid c ctx w ho hn hp hv, deletePath_four, eo, en, ep, ev]
    exact h
  · simp only [String.data_append, List.count_append, co, cn, cp, cv, c0]
    decide
  · have e : ("registry-modules/actions/delete/" ++ organization ++ "/" ++ name ++ "/"
        ++ provider ++ "/" ++ version).data
        = "registry-modules/actions/delete/".data ++ (organization.data ++ '/' ::
            (name.data ++ '/' :: (provider.data ++ '/' :: version.data))) := by
      simp [String.data_append]
    rw [pathSegments, e, splitSlash_delete, splitSlash_append_slash _ _ so,
      splitSlash_append_slash _ _ sn, splitSlash_append_slash _ _ sp,
      splitSlash_of_not_mem _ sv]
    rfl
  · have h := postNoBody_calls c ctx (deletePath [organization, name, provider]) w
    rw [deletePath_three, eo, en, ep] at h
    rw [DeleteProvider_of_valid c ctx w ho hn hp, deletePath_three, eo, en, ep]
    exact h
  · simp only [String.data_append, List.count_append, co, cn, cp, c0]
    decide
  · have e : ("registry-modules/actions/delete/" ++ organization ++ "/" ++ name ++ "/"
        ++ provider).data
        = "registry-modules/actions/delete/".data ++ (organization.data ++ '/' ::
            (name.data ++ '/' :: provider.data)) := by
      simp [String.data_append]
    rw [pathSegments, e, splitSlash_delete, splitSlash_append_slash _ _ so,
      splitSlash_append_slash _ _ sn, splitSlash_of_not_mem _ sp]
    rfl
  · have h := postNoBody_calls c ctx (deletePath [organization, name]) w
    rw [deletePath_two, eo, en] at h
    rw [Delete_of_valid c ctx w ho hn, deletePath_two, eo, en]
    exact h
  · simp only [String.data_append, List.count_append, co, cn, c0]
    decide
  · have e : ("registry-modules/actions/delete/" ++ organization ++ "/" ++ name).data
        = "registry-modules/actions/delete/".data ++ (organization.data ++ '/' :: name.data) := by
      simp [String.data_append]
    rw [pathSegments, e, splitSlash_delete, splitSlash_append_slash _ _ so,
      splitSlash_of_not_mem _ sn]
    rfl

/-- Identifiers with a hyphen, an underscore and dots escape to themselves and are the
last four segments of the path. -/
theorem validated_identifiers_escape_to_themselves_witness :
    validStringID "acme-corp" = true ∧ validStringID "vpc_2" = true ∧
    validStringID "aws" = true ∧ validStringID "1.0.0" = true ∧
    (QueryEscape "acme-corp" = "acme-corp" ∧ QueryEscape "vpc_2" = "vpc_2" ∧
      QueryEscape "aws" = "aws" ∧ QueryEscape "1.0.0" = "1.0.0") ∧
    ((∃ tail, (DeleteVersion liveClient background "acme-corp" "vpc_2" "aws" "1.0.0"
          world0).2.calls
        = world0.calls ++ Call.newRequest "POST"
            ("registry-modules/actions/delete/" ++ "acme-corp" ++ "/" ++ "vpc_2" ++ "/"
              ++ "aws" ++ "/" ++ "1.0.0") none :: tail ∧
        (tail = [] ∨ ∃ req, tail = [Call.«do» background req none])) ∧
      ("registry-modules/actions/delete/" ++ "acme-corp" ++ "/" ++ "vpc_2" ++ "/"
        ++ "aws" ++ "/" ++ "1.0.0").data.count '/' = 6 ∧
      pathSegments ("registry-modules/actions/delete/" ++ "acme-corp" ++ "/" ++ "vpc_2" ++ "/"
        ++ "aws" ++ "/" ++ "1.0.0")
        = ["registry-modules", "actions", "delete", "acme-corp", "vpc_2", "aws", "1.0.0"]) :=
  ⟨by decide, by decide, by decide, by decide,
   (validated_identifiers_escape_to_themselves liveClient background world0
      "acme-corp" "vpc_2" "aws" "1.0.0" (by decide) (by decide) (by decide) (by decide)).1,
   (validated_identifiers_escape_to_themselves liveClient background world0
      "acme-corp" "vpc_2" "aws" "1.0.0" (by decide) (by decide) (by decide)
      (by decide)).2.2.1⟩

/-- C10 as stated fails in its last clause: the identifier `..` passes validation, and
DeleteVersion("acme", "x", "..", "vpc") requests a path that holds it as a
segment of its own. Resolved against the base path `/api/v2/` of the client,
the dot segment removes the segment before it: the request goes to the very
path that Delete("acme", "vpc") requests, two identifiers instead of
four. -/
theorem dot_dot_identifier_removes_a_segment :
    (validStringID "acme" = true ∧ validStringID "x" = true ∧
      validStringID ".." = true ∧ validStringID "vpc" = true) ∧
    (DeleteVersion liveClient background "acme" "x" ".." "vpc" world0).2.calls
      = [Call.newRequest "POST" "registry-modules/actions/delete/acme/x/../vpc" none,
         Call.«do» background
           ⟨"POST", "registry-modules/actions/delete/acme/x/../vpc", none⟩ none] ∧
    (Delete liveClient background "acme" "vpc" world0).2.calls
      = [Call.newRequest "POST" "registry-modules/actions/delete/acme/vpc" none,
         Call.«do» background
           ⟨"POST", "registry-modules/actions/delete/acme/vpc", none⟩ none] ∧
    resolvePath "/api/v2/" "registry-modules/actions/delete/acme/x/../vpc"
      = "/api/v2/registry-modules/actions/delete/acme/vpc" ∧
    resolvePath "/api/v2/" "registry-modules/actions/delete/acme/vpc"
      = "/api/v2/registry-modules/actions/delete/acme/vpc" := by
  decide

/-- C6: transport errors are returned as they are. For each of the five operations (the
delete operations on identifiers that pass validation, the only ones that
reach the transport): if `newRequest` reports `e`, the operation returns
exactly `e` after that single call, without calling `do`; if the request is
built and `do` reports `e`, the operation returns exactly `e` after exactly
those two calls. Create and CreateWithVCSConnection return a nil module in
both cases. -/
theorem transport_error_returned_as_is (c : Client σ κ ρ ε ο ω) (ctx : κ)
    (w : World σ κ ρ ο ω) (e : ε) :
    (∀ (options : RegistryModuleCreateOptions ο),
      (∀ s1, c.newRequest "POST" "registry-modules" (some (Body.create options)) w.state
          = (Except.error e, s1) →
        Create c ctx options w
          = ((none, some (Error.transport e)),
             ⟨s1, w.calls ++
               [Call.newRequest "POST" "registry-modules" (some (Body.create options))]⟩)) ∧
      (∀ req s1 stored s2,
        c.newRequest "POST" "registry-modules" (some (Body.create options)) w.state
          = (Except.ok req, s1) →
        c.«do» ctx req (some (RegistryModule.zero ω)) s1 = ((some e, stored), s2) →
        Create c ctx options w
          = ((none, some (Error.transport e)),
             ⟨s2, w.calls ++
               [Call.newRequest "POST" "registry-modules" (some (Body.create options)),
                Call.«do» ctx req (some (RegistryModule.zero ω))]⟩))) ∧
    (∀ (options : RegistryModuleCreateFromVCSConnectionOptions ο),
      (∀ s1, c.newRequest "POST" "registry-modules" (some (Body.createFromVCS options)) w.state
          = (Except.error e, s1) →
        CreateWithVCSConnection c ctx options w
          = ((none, some (Error.transport e)),
             ⟨s1, w.calls ++
               [Call.newRequest "POST" "registry-modules"
                 (some (Body.createFromVCS options))]⟩)) ∧
      (∀ req s1 stored s2,
        c.newRequest "POST" "registry-modules" (some (Body.createFromVCS options)) w.state
          = (Except.ok req, s1) →
        c.«do» ctx req (some (RegistryModule.zero ω)) s1 = ((some e, stored), s2) →
        CreateWithVCSConnection c ctx options w
          = ((none, some (Error.transport e)),
             ⟨s2, w.calls ++
               [Call.newRequest "POST" "registry-modules" (some (Body.createFromVCS options)),
                Call.«do» ctx req (some (RegistryModule.zero ω))]⟩))) ∧
    (∀ organization name, validStringID organization = true → validStringID name = true →
      (∀ s1, c.newRequest "POST" (deletePath [organization, name]) none w.state
          = (Except.error e, s1) →
        Delete c ctx organization name w
          = (some (Error.transport e),
             ⟨s1, w.calls ++
               [Call.newRequest "POST" (deletePath [organization, name]) none]⟩)) ∧
      (∀ req s1 stored s2,
        c.newRequest "POST" (deletePath [organization, name]) none w.state
          = (Except.ok req, s1) →
        c.«do» ctx req none s1 = ((some e, stored), s2) →
        Delete c ctx organization name w
          = (some (Error.transport e),
             ⟨s2, w.calls ++
               [Call.newRequest "POST" (deletePath [organization, name]) none,
                Call.«do» ctx req none]⟩))) ∧
    (∀ organization name provider, validStringID organization = true →
      validStringID name = true → validStringID provider = true →
      (∀ s1, c.newRequest "POST" (deletePath [organization, name, provider]) none w.state
          = (Except.error e, s1) →
        DeleteProvider c ctx organization name provider w
          = (some (Error.transport e),
             ⟨s1, w.calls ++
               [Call.newRequest "POST" (deletePath [organization, name, provider]) none]⟩)) ∧
      (∀ req s1 stored s2,
        c.newRequest "POST" (deletePath [organization, name, provider]) none w.state
          = (Except.ok req, s1) →
        c.«do» ctx req none s1 = ((some e, stored), s2) →
        DeleteProvider c ctx organization name provider w
          = (some (Error.transport e),
             ⟨s2, w.calls ++
               [Call.newRequest "POST" (deletePath [organization, name, provider]) none,
                Call.«do» ctx req none]⟩))) ∧
    (∀ organization name provider version, validStringID organization = true →
      validStringID name = true → validStringID provider = true →
      validStringID version = true →
      (∀ s1, c.newRequest "POST" (deletePath [organization, name, provider, version]) none
            w.state
          = (Except.error e, s1) →
        DeleteVersion c ctx organization name provider version w
          = (some (Error.transport e),
             ⟨s1, w.calls ++
               [Call.newRequest "POST" (deletePath [organization, name, provider, version])
                 none]⟩)) ∧
      (∀ req s1 stored s2,
        c.newRequest "POST" (deletePath [organization, name, provider, version]) none w.state
          = (Except.ok req, s1) →
        c.«do» ctx req none s1 = ((some e, stored), s2) →
        DeleteVersion c ctx organization name provider version w
          = (some (Error.transport e),
             ⟨s2, w.calls ++
               [Call.newRequest "POST" (deletePath [organization, name, provider, version])
                  none,
                Call.«do» ctx req none]⟩))) := by
  refine ⟨fun options => ⟨?_, ?_⟩, fun options => ⟨?_, ?_⟩, ?_, ?_, ?_⟩
  · intro s1 h
    simp [Create, callNewRequest, h]
  · intro req s1 stored s2 h hd
    simp [Create, callNewRequest, callDo, h, hd]
  · intro s1 h
    simp [CreateWithVCSConnection, callNewRequest, h]
  · intro req s1 stored s2 h hd
    simp [CreateWithVCSConnection, callNewRequest, callDo, h, hd]
  · intro organization name ho hn
    rw [Delete_of_valid c ctx w ho hn]
    refine ⟨fun s1 h => postNoBody_build_error c ctx _ w h, fun req s1 stored s2 h hd => ?_⟩
    rw [postNoBody_built c ctx _ w h, hd]
    rfl
  · intro organization name provider ho hn hp
    rw [DeleteProvider_of_valid c ctx w ho hn hp]
    refine ⟨fun s1 h => postNoBody_build_error c ctx _ w h, fun req s1 stored s2 h hd => ?_⟩
    rw [postNoBody_built c ctx _ w h, hd]
    rfl
  · intro organization name provider version ho hn hp hv
    rw [DeleteVersion_of_valid c ctx w ho hn hp hv]
    refine ⟨fun s1 h => postNoBody_build_error c ctx _ w h, fun req s1 stored s2 h hd => ?_⟩
    rw [postNoBody_built c ctx _ w h, hd]
    rfl

/-- A failing `newRequest` under Create and a failing `do` under Delete. -/
theorem transport_error_returned_as_is_witness :
    ((sampleClient (some TransportError.unauthorized) none).newRequest "POST" "registry-modules"
        (some (Body.create ⟨none⟩)) world0.state
        = (Except.error TransportError.unauthorized, 0) ∧
      Create (sampleClient (some TransportError.unauthorized) none) background ⟨none⟩ world0
        = ((none, some (Error.transport TransportError.unauthorized)),
           ⟨0, world0.calls ++
             [Call.newRequest "POST" "registry-modules" (some (Body.create ⟨none⟩))]⟩)) ∧
    (validStringID "acme" = true ∧ validStringID "vpc" = true ∧
      (sampleClient none (some TransportError.notFound)).newRequest "POST"
        (deletePath ["acme", "vpc"]) none world0.state
        = (Except.ok ⟨"POST", deletePath ["acme", "vpc"], none⟩, 0) ∧
      (sampleClient none (some TransportError.notFound)).«do» background
        ⟨"POST", deletePath ["acme", "vpc"], none⟩ none 0
        = ((some TransportError.notFound, none), 1) ∧
      Delete (sampleClient none (some TransportError.notFound)) background "acme" "vpc" world0
        = (some (Error.transport TransportError.notFound),
           ⟨1, world0.calls ++
             [Call.newRequest "POST" (deletePath ["acme", "vpc"]) none,
              Call.«do» background ⟨"POST", deletePath ["acme", "vpc"], none⟩ none]⟩)) :=
  ⟨⟨rfl,
    ((transport_error_returned_as_is (sampleClient (some TransportError.unauthorized) none)
      background world0 TransportError.unauthorized).1 ⟨none⟩).1 0 rfl⟩,
   ⟨by decide, by decide, rfl, rfl,
    ((transport_error_returned_as_is (sampleClient none (some TransportError.notFound))
      background world0 TransportError.notFound).2.2.1 "acme" "vpc" (by decide) (by decide)).2
        ⟨"POST", deletePath ["acme", "vpc"], none⟩ 0 none 1 rfl rfl⟩⟩

/-- C7 as stated fails: with an already-cancelled context and an empty organization,
Delete returns the validation error for organization, not a cancellation
error, although the transport would report `canceled` for this context. -/
theorem cancelled_context_yields_validation_error :
    cancelledCtx.cancelled = true ∧
    (liveClient.«do» cancelledCtx ⟨"POST", "", none⟩ none 0).1.1
      = some TransportError.canceled ∧
    (Delete liveClient cancelledCtx "" "vpc" world0).1
      = some (Error.errorsNew "invalid value for organization") ∧
    (Delete liveClient cancelledCtx "" "vpc" world0).1
      ≠ some (Error.transport TransportError.canceled) := by
  decide

/-- C7, amended: the context reaches the transport's `do` and nothing else. Take a
context for which `do` reports a cancellation-kind error (as for an
already-cancelled one). Then Create and CreateWithVCSConnection return that
error with a nil module whenever `newRequest` built the request, and Delete,
DeleteProvider and DeleteVersion return it whenever the identifiers pass
validation and `newRequest` built the request; with an invalid identifier
the delete operations return a validation error under that context too. -/
theorem cancellation_is_reported_by_do_after_validation (c : Client σ κ ρ ε ο ω) (ctx : κ)
    (isCancel : ε → Prop) (w : World σ κ ρ ο ω)
    (hdo : ∀ req v s, ∃ e, isCancel e ∧ (c.«do» ctx req v s).1.1 = some e) :
    (∀ (options : RegistryModuleCreateOptions ο) req s1,
      c.newRequest "POST" "registry-modules" (some (Body.create options)) w.state
        = (Except.ok req, s1) →
      ∃ e, isCancel e ∧ (Create c ctx options w).1 = (none, some (Error.transport e))) ∧
    (∀ (options : RegistryModuleCreateFromVCSConnectionOptions ο) req s1,
      c.newRequest "POST" "registry-modules" (some (Body.createFromVCS options)) w.state
        = (Except.ok req, s1) →
      ∃ e, isCancel e ∧
        (CreateWithVCSConnection c ctx options w).1 = (none, some (Error.transport e))) ∧
    (∀ organization name req s1,
      validStringID organization = true → validStringID name = true →
      c.newRequest "POST" (deletePath [organization, name]) none w.state
        = (Except.ok req, s1) →
      ∃ e, isCancel e ∧
        (Delete c ctx organization name w).1 = some (Error.transport e)) ∧
    (∀ organization name provider req s1,
      validStringID organization = true → validStringID name = true →
      validStringID provider = true →
      c.newRequest "POST" (deletePath [organization, name, provider]) none w.state
        = (Except.ok req, s1) →
      ∃ e, isCancel e ∧
        (DeleteProvider c ctx organization name provider w).1 = some (Error.transport e)) ∧
    (∀ organization name provider version req s1,
      validStringID organization = true → validStringID name = true →
      validStringID provider = true → validStringID version = true →
      c.newRequest "POST" (deletePath [organization, name, provider, version]) none w.state
        = (Except.ok req, s1) →
      ∃ e, isCancel e ∧
        (DeleteVersion c ctx organization name provider version w).1
          = some (Error.transport e)) ∧
    (∀ organization name provider version,
      ((Invalid organization ∨ Invalid name) →
        IsValidationError (Delete c ctx organization name w).1) ∧
      ((Invalid organization ∨ Invalid name ∨ Invalid provider) →
        IsValidationError (DeleteProvider c ctx organization name provider w).1) ∧
      ((Invalid organization ∨ Invalid name ∨ Invalid provider ∨ Invalid version) →
        IsValidationError (DeleteVersion c ctx organization name provider version w).1)) := by
  refine ⟨?_, ?_, ?_, ?_, ?_, ?_⟩
  · intro options req s1 h
    obtain ⟨e, he, hd⟩ := hdo req (some (RegistryModule.zero ω)) s1
    refine ⟨e, he, ?_⟩
    rcases hr : c.«do» ctx req (some (RegistryModule.zero ω)) s1 with ⟨⟨err, stored⟩, s2⟩
    rw [hr] at hd
    simp only at hd
    subst hd
    simp [Create, callNewRequest, callDo, h, hr]
  · intro options req s1 h
    obtain ⟨e, he, hd⟩ := hdo req (some (RegistryModule.zero ω)) s1
    refine ⟨e, he, ?_⟩
    rcases hr : c.«do» ctx req (some (RegistryModule.zero ω)) s1 with ⟨⟨err, stored⟩, s2⟩
    rw [hr] at hd
    simp only at hd
    subst hd
    simp [CreateWithVCSConnection, callNewRequest, callDo, h, hr]
  · intro organization name req s1 ho hn h
    obtain ⟨e, he, hd⟩ := hdo req none s1
    refine ⟨e, he, ?_⟩
    rw [Delete_of_valid c ctx w ho hn, postNoBody_built c ctx _ w h]
    simp [hd]
  · intro organization name provider req s1 ho hn hp h
    obtain ⟨e, he, hd⟩ := hdo req none s1
    refine ⟨e, he, ?_⟩
    rw [DeleteProvider_of_valid c ctx w ho hn hp, postNoBody_built c ctx _ w h]
    simp [hd]
  · intro organization name provider version req s1 ho hn hp hv h
    obtain ⟨e, he, hd⟩ := hdo req none s1
    refine ⟨e, he, ?_⟩
    rw [DeleteVersion_of_valid c ctx w ho hn hp hv, postNoBody_built c ctx _ w h]
    simp [hd]
  · intro organization name provider version
    simp only [invalid_iff]
    refine ⟨?_, ?_, ?_⟩
    · intro h
      unfold Delete
      split_ifs <;>
        simp_all [IsValidationError, validationTexts, validString_of_validStringID]
    · intro h
      unfold DeleteProvider
      split_ifs <;>
        simp_all [IsValidationError, validationTexts, validString_of_validStringID]
    · intro h
      unfold DeleteVersion
      split_ifs <;>
        simp_all [IsValidationError, validationTexts, validString_of_validStringID]

/-- The sample transport reports `canceled` from `do` for a cancelled context. -/
theorem liveClient_do_cancelled (req : Request) (v : Option (RegistryModule String))
    (s : Nat) :
    ∃ e, e = TransportError.canceled ∧ (liveClient.«do» cancelledCtx req v s).1.1 = some e :=
  ⟨TransportError.canceled, rfl, rfl⟩

/-- A cancelled context under Create, under DeleteVersion and under a Delete that fails
validation. -/
theorem cancellation_is_reported_by_do_after_validation_witness :
    (∀ req v s, ∃ e, e = TransportError.canceled ∧
      (liveClient.«do» cancelledCtx req v s).1.1 = some e) ∧
    (liveClient.newRequest "POST" "registry-modules" (some (Body.create ⟨some "repo"⟩))
        world0.state
        = (Except.ok ⟨"POST", "registry-modules", some (Body.create ⟨some "repo"⟩)⟩, 0) ∧
      ∃ e, e = TransportError.canceled ∧
        (Create liveClient cancelledCtx ⟨some "repo"⟩ world0).1
          = (none, some (Error.transport e))) ∧
    (validStringID "acme" = true ∧ validStringID "vpc" = true ∧
      validStringID "aws" = true ∧ validStringID "1.0.0" = true ∧
      liveClient.newRequest "POST" (deletePath ["acme", "vpc", "aws", "1.0.0"]) none
        world0.state
        = (Except.ok ⟨"POST", deletePath ["acme", "vpc", "aws", "1.0.0"], none⟩, 0) ∧
      ∃ e, e = TransportError.canceled ∧
        (DeleteVersion liveClient cancelledCtx "acme" "vpc" "aws" "1.0.0" world0).1
          = some (Error.transport e)) ∧
    ((Invalid "acme" ∨ Invalid "") ∧
      IsValidationError (Delete liveClient cancelledCtx "acme" "" world0).1) :=
  ⟨liveClient_do_cancelled,
   ⟨rfl, (cancellation_is_reported_by_do_after_validation liveClient cancelledCtx
      (fun e => e = TransportError.canceled) world0 liveClient_do_cancelled).1
        ⟨some "repo"⟩ _ 0 rfl⟩,
   ⟨by decide, by decide, by decide, by decide, rfl,
    (cancellation_is_reported_by_do_after_validation liveClient cancelledCtx
      (fun e => e = TransportError.canceled) world0 liveClient_do_cancelled).2.2.2.2.1
        "acme" "vpc" "aws" "1.0.0" _ 0 (by decide) (by decide) (by decide) (by decide) rfl⟩,
   ⟨Or.inr (Or.inl rfl),
    ((cancellation_is_reported_by_do_after_validation liveClient cancelledCtx
      (fun e => e = TransportError.canceled) world0 liveClient_do_cancelled).2.2.2.2.2
        "acme" "" "" "").1 (Or.inr (Or.inl rfl))⟩⟩

/-- C8 as stated fails: CreateWithVCSConnection with no VCS repo descriptor returns no
error against the sample transport, and both transport calls are made with
the descriptor-less options as the body. -/
theorem CreateWithVCSConnection_without_repo_is_sent :
    (CreateWithVCSConnection liveClient background ⟨none⟩ world0).1.2 = none ∧
    (CreateWithVCSConnection liveClient background ⟨none⟩ world0).2.calls
      = [Call.newRequest "POST" "registry-modules" (some (Body.createFromVCS ⟨none⟩)),
         Call.«do» background
           ⟨"POST", "registry-modules", some (Body.createFromVCS ⟨none⟩)⟩
           (some (RegistryModule.zero String))] := by
  decide

/-- C8, amended: CreateWithVCSConnection does not check the VCS repo descriptor. For every
call, also one whose `VCSRepo` is nil, its first action is the call
`newRequest("POST", "registry-modules", &options)`, and it never returns an
error made locally: an error it returns is one the transport reported. -/
theorem CreateWithVCSConnection_has_no_local_check (c : Client σ κ ρ ε ο ω) (ctx : κ)
    (options : RegistryModuleCreateFromVCSConnectionOptions ο) (w : World σ κ ρ ο ω) :
    (∃ tail, (CreateWithVCSConnection c ctx options w).2.calls
      = w.calls ++ Call.newRequest "POST" "registry-modules"
          (some (Body.createFromVCS options)) :: tail) ∧
    (∀ text, (CreateWithVCSConnection c ctx options w).1.2 ≠ some (Error.errorsNew text)) ∧
    (∀ err, (CreateWithVCSConnection c ctx options w).1.2 = some err →
      ∃ e, err = Error.transport e) := by
  rcases h : c.newRequest "POST" "registry-modules" (some (Body.createFromVCS options))
    w.state with ⟨r, s1⟩
  cases r with
  | error e =>
    simp [CreateWithVCSConnection, callNewRequest, h]
  | ok req =>
    rcases hd : c.«do» ctx req (some (RegistryModule.zero ω)) s1 with ⟨⟨err, stored⟩, s2⟩
    cases err <;> simp [CreateWithVCSConnection, callNewRequest, callDo, h, hd]

/-- C9: Create and CreateWithVCSConnection each make exactly one call to `newRequest`,
with method POST, the path "registry-modules" and the given options as the
body, followed by at most one `do` of the built request into a fresh
module; and when the request is built and `do` reports no error, they return
a nil error and the module the transport stored through the target (the
still-zero module if it stored none), after exactly those two calls. -/
theorem create_posts_options_and_returns_decoded_module (c : Client σ κ ρ ε ο ω) (ctx : κ)
    (w : World σ κ ρ ο ω) :
    (∀ (options : RegistryModuleCreateOptions ο),
      (∃ tail, (Create c ctx options w).2.calls
          = w.calls ++ Call.newRequest "POST" "registry-modules"
              (some (Body.create options)) :: tail ∧
          (tail = [] ∨ ∃ req, tail = [Call.«do» ctx req (some (RegistryModule.zero ω))])) ∧
      (∀ req s1 stored s2,
        c.newRequest "POST" "registry-modules" (some (Body.create options)) w.state
          = (Except.ok req, s1) →
        c.«do» ctx req (some (RegistryModule.zero ω)) s1 = ((none, stored), s2) →
        Create c ctx options w
          = ((some (stored.getD (RegistryModule.zero ω)), none),
             ⟨s2, w.calls ++
               [Call.newRequest "POST" "registry-modules" (some (Body.create options)),
                Call.«do» ctx req (some (RegistryModule.zero ω))]⟩))) ∧
    (∀ (options : RegistryModuleCreateFromVCSConnectionOptions ο),
      (∃ tail, (CreateWithVCSConnection c ctx options w).2.calls
          = w.calls ++ Call.newRequest "POST" "registry-modules"
              (some (Body.createFromVCS options)) :: tail ∧
          (tail = [] ∨ ∃ req, tail = [Call.«do» ctx req (some (RegistryModule.zero ω))])) ∧
      (∀ req s1 stored s2,
        c.newRequest "POST" "registry-modules" (some (Body.createFromVCS options)) w.state
          = (Except.ok req, s1) →
        c.«do» ctx req (some (RegistryModule.zero ω)) s1 = ((none, stored), s2) →
        CreateWithVCSConnection c ctx options w
          = ((some (stored.getD (RegistryModule.zero ω)), none),
             ⟨s2, w.calls ++
               [Call.newRequest "POST" "registry-modules" (some (Body.createFromVCS options)),
                Call.«do» ctx req (some (RegistryModule.zero ω))]⟩))) := by
  refine ⟨fun options => ⟨?_, ?_⟩, fun options => ⟨?_, ?_⟩⟩
  · rcases h : c.newRequest "POST" "registry-modules" (some (Body.create options))
      w.state with ⟨r, s1⟩
    cases r with
    | error e =>
      exact ⟨[], by simp [Create, callNewRequest, h], Or.inl rfl⟩
    | ok req =>
      refine ⟨[Call.«do» ctx req (some (RegistryModule.zero ω))], ?_, Or.inr ⟨req, rfl⟩⟩
      rcases hd : c.«do» ctx req (some (RegistryModule.zero ω)) s1 with ⟨⟨err, stored⟩, s2⟩
      cases err <;> simp [Create, callNewRequest, callDo, h, hd]
  · intro req s1 stored s2 h hd
    simp [Create, callNewRequest, callDo, h, hd]
  · rcases h : c.newRequest "POST" "registry-modules" (some (Body.createFromVCS options))
      w.state with ⟨r, s1⟩
    cases r with
    | error e =>
      exact ⟨[], by simp [CreateWithVCSConnection, callNewRequest, h], Or.inl rfl⟩
    | ok req =>
      refine ⟨[Call.«do» ctx req (some (RegistryModule.zero ω))], ?_, Or.inr ⟨req, rfl⟩⟩
      rcases hd : c.«do» ctx req (some (RegistryModule.zero ω)) s1 with ⟨⟨err, stored⟩, s2⟩
      cases err <;> simp [CreateWithVCSConnection, callNewRequest, callDo, h, hd]
  · intro req s1 stored s2 h hd
    simp [CreateWithVCSConnection, callNewRequest, callDo, h, hd]

/-- Create against the sample transport returns the module it stored. -/
theorem create_posts_options_and_returns_decoded_module_witness :
    (liveClient.newRequest "POST" "registry-modules" (some (Body.create ⟨none⟩)) world0.state
        = (Except.ok ⟨"POST", "registry-modules", some (Body.create ⟨none⟩)⟩, 0) ∧
      liveClient.«do» background ⟨"POST", "registry-modules", some (Body.create ⟨none⟩)⟩
          (some (RegistryModule.zero String)) 0
        = ((none, some ⟨"mod-1", "vpc", "aws", "pending", [], none, "", "", none⟩), 1) ∧
      Create liveClient background ⟨none⟩ world0
        = ((some ((some ⟨"mod-1", "vpc", "aws", "pending", [], none, "", "", none⟩ :
              Option (RegistryModule String)).getD (RegistryModule.zero String)), none),
           ⟨1, world0.calls ++
             [Call.newRequest "POST" "registry-modules" (some (Body.create ⟨none⟩)),
              Call.«do» background
                ⟨"POST", "registry-modules", some (Body.create ⟨none⟩)⟩
                (some (RegistryModule.zero String))]⟩)) ∧
    (Create liveClient background ⟨none⟩ world0).1
      = (some ⟨"mod-1", "vpc", "aws", "pending", [], none, "", "", none⟩, none) :=
  ⟨⟨rfl, rfl,
    ((create_posts_options_and_returns_decoded_module liveClient background world0).1
      ⟨none⟩).2 _ 0 _ 1 rfl rfl⟩,
   by decide⟩

end Claims

end Tfe
